import Mathlib

/-!
Shallow embedding of src/src/net/secure_socket.cc, a thin wrapper around
the OpenSSL C library. The OpenSSL library itself is external: each call
into it is modelled by passing the result the library would return as an
explicit argument, and by recording the call in an event trace. Readiness
registration (register_read / register_write, inherited from the socket
base class) is likewise recorded in the event trace. Exceptions thrown by
the wrapper are modelled with Except; a failed C assert is modelled as a
distinct fatal outcome.
-/

/-- OpenSSL error-classification constant SSL_ERROR_SYSCALL. -/
def SSL_ERROR_SYSCALL : Int := 5

/-- OpenSSL error-classification constant SSL_ERROR_ZERO_RETURN. -/
def SSL_ERROR_ZERO_RETURN : Int := 6

/-- OpenSSL mode flag CRYPTO_LOCK, tested by the locking callback. -/
def CRYPTO_LOCK : Nat := 1

/-- OpenSSL session mode flag SSL_MODE_AUTO_RETRY. -/
def SSL_MODE_AUTO_RETRY : Nat := 4

/-- Maximum SSL record size used as the read buffer length in the source. -/
def SSL_max_record_length : Nat := 16384

/-- Errors thrown by the wrapper: ssl_error carries the name of the failing
OpenSSL operation; runtime_error is the generic construction error. -/
inductive SocketError where
  | ssl_error (op : String)
  | runtime_error (msg : String)
deriving DecidableEq

/-- Observable events emitted by a wrapper method, in order: calls into the
OpenSSL read/write primitives, and readiness registrations with the event
mechanism of the surrounding socket classes. -/
inductive Event where
  | SSL_read_call (buflen : Nat)
  | SSL_write_call (len : Nat)
  | register_read
  | register_write
deriving DecidableEq

/-- A raw TCP socket, reduced to its file descriptor number. -/
structure TCPSocket where
  fd : Nat
deriving DecidableEq

/-- An opaque OpenSSL context handle. -/
structure SSL_CTX where
  id : Nat
deriving DecidableEq

/-- An OpenSSL session handle: the bound file descriptor (none until
SSL_set_fd succeeds) and the mode word set by SSL_set_mode. -/
structure SSLSession where
  fd : Option Nat
  mode : Nat
deriving DecidableEq

/-- State of a SecureSocket: the wrapped TCP socket, the owned session
handle, and the end-of-file flag set by set_eof (the flag lives in the
FileDescriptor base class, outside this file; it starts unset). -/
structure SecureSocket where
  sock : TCPSocket
  ssl : SSLSession
  eof : Bool
deriving DecidableEq

/-- Results the OpenSSL library hands back across one SecureSocket::read
call: the SSL_read return value, the bytes it placed in the buffer, the
SSL_pending answer, the SSL_get_error classification for return value 0,
and the head of the error queue as popped by ERR_get_error. -/
structure ReadLibResult where
  bytes_read : Int
  buffer : List Nat
  pending : Nat
  error_return : Int
  err_queue_head : Nat
deriving DecidableEq

/-- Outcome of SecureSocket::read: a returned string (as a byte list), a
thrown ssl_error, or a failed C assert. -/
inductive ReadOutcome where
  | ok (data : List Nat)
  | err (op : String)
  | assertFailed (cond : String)
deriving DecidableEq

/-- OpenSSL::locking_function. Given the mode word, the slot index n and
the lock array (true = held), it locks slot n when mode has the
CRYPTO_LOCK bit and unlocks it otherwise. The array access is
vector::at, which is bounds-checked: an out-of-range index (negative
indices convert to out-of-range size_t values) throws, modelled as none. -/
def OpenSSL.locking_function (mode : Nat) (n : Int) (locks : List Bool) :
    Option (List Bool) :=
  if 0 ≤ n ∧ n.toNat < locks.length then
    if mode &&& CRYPTO_LOCK ≠ 0 then
      some (locks.set n.toNat true)
    else
      some (locks.set n.toNat false)
  else
    none

/-- initialize_new_context: runs the process-wide initializer, then asks
OpenSSL for a context. The SSL_CTX_new result is passed in; a null result
throws ssl_error with the tag written in the source ("SSL_CTL_new"). -/
def initialize_new_context (SSL_CTX_new_result : Option SSL_CTX) :
    Except SocketError SSL_CTX :=
  match SSL_CTX_new_result with
  | none => Except.error (SocketError.ssl_error ("SSL_CTL_new"))
  | some ret => Except.ok ret

/-- The SecureSocket constructor. A null SSL pointer throws the generic
runtime_error; then SSL_set_fd binds the session to the socket descriptor
(its int result is passed in; the source treats 0 as failure and throws
ssl_error); finally SSL_set_mode ors SSL_MODE_AUTO_RETRY into the mode. -/
def SecureSocket.construct (sock : TCPSocket) (ssl : Option SSLSession)
    (SSL_set_fd_result : Int) : Except SocketError SecureSocket :=
  match ssl with
  | none =>
    Except.error
      (SocketError.runtime_error
        ("SecureSocket: constructor must be passed valid SSL structure"))
  | some s =>
    if SSL_set_fd_result = 0 then
      Except.error (SocketError.ssl_error ("SSL_set_fd"))
    else
      Except.ok
        { sock := sock,
          ssl := { s with fd := some sock.fd,
                          mode := s.mode ||| SSL_MODE_AUTO_RETRY },
          eof := false }

/-- SSLContext::new_secure_socket: wraps the accepted socket and the
SSL_new result (possibly null) through the SecureSocket constructor. -/
def SSLContext.new_secure_socket (_ctx : SSL_CTX) (sock : TCPSocket)
    (SSL_new_result : Option SSLSession) (SSL_set_fd_result : Int) :
    Except SocketError SecureSocket :=
  SecureSocket.construct sock SSL_new_result SSL_set_fd_result

/-- set_eof from the FileDescriptor base class: marks the end-of-file flag. -/
def SecureSocket.set_eof (s : SecureSocket) : SecureSocket :=
  { s with eof := true }

/-- SecureSocket::connect. The source tests `not SSL_connect(...)`, so the
ssl_error is thrown exactly when SSL_connect returns 0; otherwise it
registers read- and write-readiness and returns. -/
def SecureSocket.connect (s : SecureSocket) (SSL_connect_result : Int) :
    Except SocketError Unit × SecureSocket × List Event :=
  if SSL_connect_result = 0 then
    (Except.error (SocketError.ssl_error ("SSL_connect")), s, [])
  else
    (Except.ok (), s, [Event.register_read, Event.register_write])

/-- SecureSocket::accept. Return value exactly 1 returns normally; any
other value throws ssl_error. The register_read() statement in the source
stands after an if/else in which both branches return or throw, so it is
unreachable and no event is ever emitted. -/
def SecureSocket.accept (s : SecureSocket) (SSL_accept_result : Int) :
    Except SocketError Unit × SecureSocket × List Event :=
  if SSL_accept_result = 1 then
    (Except.ok (), s, [])
  else
    (Except.error (SocketError.ssl_error ("SSL_accept")), s, [])

/-- SecureSocket::read. One SSL_read call with a buffer of
SSL_max_record_length bytes, then assert(0 == SSL_pending); a zero return
consults SSL_get_error: SSL_ERROR_ZERO_RETURN marks EOF,
SSL_ERROR_SYSCALL asserts the error queue is empty and then marks EOF,
anything else falls through; all zero-return paths that survive the
asserts register read-readiness and return an empty string. A negative
return throws ssl_error; a positive return registers read-readiness and
returns the bytes read. -/
def SecureSocket.read (s : SecureSocket) (lib : ReadLibResult) :
    ReadOutcome × SecureSocket × List Event :=
  if lib.pending = 0 then
    if lib.bytes_read = 0 then
      if lib.error_return = SSL_ERROR_ZERO_RETURN then
        (ReadOutcome.ok [], s.set_eof,
          [Event.SSL_read_call SSL_max_record_length, Event.register_read])
      else if lib.error_return = SSL_ERROR_SYSCALL then
        if lib.err_queue_head = 0 then
          (ReadOutcome.ok [], s.set_eof,
            [Event.SSL_read_call SSL_max_record_length, Event.register_read])
        else
          (ReadOutcome.assertFailed ("ERR_get_error() == 0"), s,
            [Event.SSL_read_call SSL_max_record_length])
      else
        (ReadOutcome.ok [], s,
          [Event.SSL_read_call SSL_max_record_length, Event.register_read])
    else if lib.bytes_read < 0 then
      (ReadOutcome.err ("SSL_read"), s,
        [Event.SSL_read_call SSL_max_record_length])
    else
      (ReadOutcome.ok (lib.buffer.take lib.bytes_read.toNat), s,
        [Event.SSL_read_call SSL_max_record_length, Event.register_read])
  else
    (ReadOutcome.assertFailed ("0 == SSL_pending( ssl_.get() )"), s,
      [Event.SSL_read_call SSL_max_record_length])

/-- SecureSocket::write. One SSL_write call over the whole message; a
negative return throws ssl_error, otherwise write-readiness is
re-registered. The caller receives no byte count. -/
def SecureSocket.write (s : SecureSocket) (message : List Nat)
    (SSL_write_result : Int) :
    Except SocketError Unit × SecureSocket × List Event :=
  if SSL_write_result < 0 then
    (Except.error (SocketError.ssl_error ("SSL_write")), s,
      [Event.SSL_write_call message.length])
  else
    (Except.ok (), s,
      [Event.SSL_write_call message.length, Event.register_write])

/-- SecureSocket::get_error: returns the SSL_get_error classification of a
previous return value unchanged, touching no state. -/
def SecureSocket.get_error (s : SecureSocket) (SSL_get_error_result : Int) :
    Int × SecureSocket :=
  (SSL_get_error_result, s)

/-- Claim C1: when SSL_accept returns exactly 1, accept() returns normally
but emits no readiness signal at all, because the register_read() call in
the source is unreachable; every other return value raises ssl_error
tagged "SSL_accept". The first conjunct records that the event trace of
accept() is always empty, contradicting the read-readiness signal the
specification promises. -/
theorem accept_spec (s : SecureSocket) (ret : Int) :
    (s.accept ret).2.2 = []
    ∧ s.accept ret =
        (if ret = 1 then (Except.ok (), s, ([] : List Event))
         else (Except.error (SocketError.ssl_error ("SSL_accept")), s, [])) := by
  unfold SecureSocket.accept
  constructor
  · split <;> rfl
  · rfl

/-- Claim C2 counterexample: with SSL_connect returning the failure value
-1, connect() does not raise; it returns normally and signals both
readiness kinds, refuting the claim that every non-success value raises. -/
theorem connect_negative_counterexample :
    (⟨⟨3⟩, ⟨some 3, 4⟩, false⟩ : SecureSocket).connect (-1)
      = (Except.ok (), (⟨⟨3⟩, ⟨some 3, 4⟩, false⟩ : SecureSocket),
         [Event.register_read, Event.register_write]) := rfl

/-- Claim C2 (amended): connect() raises ssl_error tagged "SSL_connect"
exactly when SSL_connect returns 0; any nonzero return value, negative
results included, returns normally and signals read- and
write-readiness. -/
theorem connect_spec (s : SecureSocket) (ret : Int) :
    s.connect ret =
      (if ret = 0 then
        (Except.error (SocketError.ssl_error ("SSL_connect")), s,
          ([] : List Event))
      else
        (Except.ok (), s, [Event.register_read, Event.register_write])) := by
  rfl

/-- Claim C3: on a zero-byte SSL_read (with the pending assert passing), a
clean protocol shutdown marks EOF and returns an empty result; an unclean
transport close marks EOF and returns empty only when the error queue is
empty, while a non-empty queue fails the assert instead of being
swallowed; both EOF branches re-signal read-readiness before returning. -/
theorem read_zero_bytes_spec (s : SecureSocket) (lib : ReadLibResult)
    (hp : lib.pending = 0) (hz : lib.bytes_read = 0) :
    (lib.error_return = SSL_ERROR_ZERO_RETURN →
      s.read lib = (ReadOutcome.ok [], s.set_eof,
        [Event.SSL_read_call SSL_max_record_length, Event.register_read]))
    ∧ (lib.error_return = SSL_ERROR_SYSCALL → lib.err_queue_head = 0 →
      s.read lib = (ReadOutcome.ok [], s.set_eof,
        [Event.SSL_read_call SSL_max_record_length, Event.register_read]))
    ∧ (lib.error_return = SSL_ERROR_SYSCALL → lib.err_queue_head ≠ 0 →
      s.read lib = (ReadOutcome.assertFailed ("ERR_get_error() == 0"), s,
        [Event.SSL_read_call SSL_max_record_length])) := by
  unfold SecureSocket.read
  refine ⟨?_, ?_, ?_⟩
  · intro h1
    simp [hp, hz, h1]
  · intro h1 h2
    simp [hp, hz, h1, h2, SSL_ERROR_SYSCALL, SSL_ERROR_ZERO_RETURN]
  · intro h1 h2
    simp [hp, hz, h1, h2, SSL_ERROR_SYSCALL, SSL_ERROR_ZERO_RETURN]

/-- Witness for read_zero_bytes_spec at concrete inputs covering the three
branches. -/
theorem read_zero_bytes_spec_witness :
    ((⟨⟨3⟩, ⟨some 3, 4⟩, false⟩ : SecureSocket).read ⟨0, [], 0, 6, 0⟩
      = (ReadOutcome.ok [], (⟨⟨3⟩, ⟨some 3, 4⟩, true⟩ : SecureSocket),
         [Event.SSL_read_call 16384, Event.register_read]))
    ∧ ((⟨⟨3⟩, ⟨some 3, 4⟩, false⟩ : SecureSocket).read ⟨0, [], 0, 5, 0⟩
      = (ReadOutcome.ok [], (⟨⟨3⟩, ⟨some 3, 4⟩, true⟩ : SecureSocket),
         [Event.SSL_read_call 16384, Event.register_read]))
    ∧ ((⟨⟨3⟩, ⟨some 3, 4⟩, false⟩ : SecureSocket).read ⟨0, [], 0, 5, 9⟩
      = (ReadOutcome.assertFailed ("ERR_get_error() == 0"),
         (⟨⟨3⟩, ⟨some 3, 4⟩, false⟩ : SecureSocket),
         [Event.SSL_read_call 16384])) := by
  refine ⟨(read_zero_bytes_spec _ _ rfl rfl).1 rfl,
          (read_zero_bytes_spec _ _ rfl rfl).2.1 rfl rfl,
          (read_zero_bytes_spec _ _ rfl rfl).2.2 rfl (by decide)⟩

/-- Claim C4: every read() performs exactly one SSL_read call, always with
buffer length 16384; a positive byte count n returns exactly the n bytes
read and signals read-readiness; a negative result raises ssl_error
tagged "SSL_read". -/
theorem read_single_record_spec (s : SecureSocket) (lib : ReadLibResult) :
    ((s.read lib).2.2.count (Event.SSL_read_call SSL_max_record_length) = 1
      ∧ ∀ k, Event.SSL_read_call k ∈ (s.read lib).2.2 →
          k = SSL_max_record_length)
    ∧ (lib.pending = 0 → 0 < lib.bytes_read →
        lib.buffer.length = lib.bytes_read.toNat →
        s.read lib = (ReadOutcome.ok lib.buffer, s,
          [Event.SSL_read_call SSL_max_record_length, Event.register_read]))
    ∧ (lib.pending = 0 → lib.bytes_read < 0 →
        s.read lib = (ReadOutcome.err ("SSL_read"), s,
          [Event.SSL_read_call SSL_max_record_length])) := by
  refine ⟨⟨?_, ?_⟩, ?_, ?_⟩
  · unfold SecureSocket.read
    repeat' split
    all_goals simp [List.count_cons, beq_iff_eq]
  · intro k
    unfold SecureSocket.read
    repeat' split
    all_goals intro hk
    all_goals simp at hk
    all_goals try exact hk
  · intro hp hpos hlen
    have hz : ¬ lib.bytes_read = 0 := by omega
    have hneg : ¬ lib.bytes_read < 0 := by omega
    unfold SecureSocket.read
    simp [hp, hz, hneg, hlen, List.take_length]
  · intro hp hneg
    have hz : ¬ lib.bytes_read = 0 := by omega
    unfold SecureSocket.read
    simp [hp, hz, hneg]

/-- Witness for read_single_record_spec at concrete inputs covering the
single-call count, the positive branch and the negative branch. -/
theorem read_single_record_spec_witness :
    (((⟨⟨3⟩, ⟨some 3, 4⟩, false⟩ : SecureSocket).read
        ⟨5, [10, 20, 30, 40, 50], 0, 0, 0⟩).2.2.count
          (Event.SSL_read_call 16384) = 1)
    ∧ ((⟨⟨3⟩, ⟨some 3, 4⟩, false⟩ : SecureSocket).read
        ⟨5, [10, 20, 30, 40, 50], 0, 0, 0⟩
        = (ReadOutcome.ok [10, 20, 30, 40, 50],
           (⟨⟨3⟩, ⟨some 3, 4⟩, false⟩ : SecureSocket),
           [Event.SSL_read_call 16384, Event.register_read]))
    ∧ ((⟨⟨3⟩, ⟨some 3, 4⟩, false⟩ : SecureSocket).read ⟨-1, [], 0, 0, 0⟩
        = (ReadOutcome.err ("SSL_read"),
           (⟨⟨3⟩, ⟨some 3, 4⟩, false⟩ : SecureSocket),
           [Event.SSL_read_call 16384])) := by
  refine ⟨(read_single_record_spec _ _).1.1,
          (read_single_record_spec _ _).2.1 rfl (by decide) rfl,
          (read_single_record_spec _ _).2.2 rfl (by decide)⟩

/-- Claim C5: write() makes exactly one library write call covering the
whole payload; a negative result raises ssl_error tagged "SSL_write" and
any other result returns normally and re-signals write-readiness; the
returned value carries no byte count, so no partial-write outcome is
exposed. -/
theorem write_whole_or_error (s : SecureSocket) (message : List Nat)
    (bytes_written : Int) :
    (s.write message bytes_written).2.2.count
        (Event.SSL_write_call message.length) = 1
    ∧ s.write message bytes_written =
        (if bytes_written < 0 then
          (Except.error (SocketError.ssl_error ("SSL_write")), s,
            [Event.SSL_write_call message.length])
        else
          (Except.ok (), s,
            [Event.SSL_write_call message.length, Event.register_write])) := by
  constructor
  · unfold SecureSocket.write
    split <;> simp [List.count_cons]
  · rfl

/-- Claim C6: context creation raises ssl_error carrying the tag the
source uses for the context-allocation call when the library returns no
handle, and returns exactly the allocated handle otherwise. -/
theorem initialize_new_context_spec :
    initialize_new_context none
        = Except.error (SocketError.ssl_error ("SSL_CTL_new"))
    ∧ ∀ c, initialize_new_context (some c) = Except.ok c := by
  exact ⟨rfl, fun c => rfl⟩

/-- Claim C7: constructing with a null session handle fails with the
generic runtime_error for every raw socket and every SSL_set_fd result,
and in particular never with an ssl_error. -/
theorem construct_null_ssl_generic_error (sock : TCPSocket)
    (set_fd_result : Int) :
    SecureSocket.construct sock none set_fd_result
      = Except.error
          (SocketError.runtime_error
            ("SecureSocket: constructor must be passed valid SSL structure"))
    ∧ ∀ op, SecureSocket.construct sock none set_fd_result
        ≠ Except.error (SocketError.ssl_error op) := by
  constructor
  · rfl
  · intro op h
    simp [SecureSocket.construct] at h

/-- Claim C8: a successful construction (non-null handle, nonzero
SSL_set_fd result) binds the session handle to the raw socket descriptor,
and connect, accept, read, write and get_error all leave the bound
descriptor unchanged; a zero SSL_set_fd result raises ssl_error tagged
"SSL_set_fd". -/
theorem construct_binds_fd (sock : TCPSocket) (s0 : SSLSession) :
    (∀ r : Int, r ≠ 0 → ∀ s : SecureSocket,
      SecureSocket.construct sock (some s0) r = Except.ok s →
        s.ssl.fd = some sock.fd
        ∧ (∀ ret, ((s.connect ret).2.1).ssl.fd = s.ssl.fd)
        ∧ (∀ ret, ((s.accept ret).2.1).ssl.fd = s.ssl.fd)
        ∧ (∀ lib, ((s.read lib).2.1).ssl.fd = s.ssl.fd)
        ∧ (∀ msg bw, ((s.write msg bw).2.1).ssl.fd = s.ssl.fd)
        ∧ (∀ rv, ((s.get_error rv).2).ssl.fd = s.ssl.fd))
    ∧ SecureSocket.construct sock (some s0) 0
        = Except.error (SocketError.ssl_error ("SSL_set_fd")) := by
  constructor
  · intro r hr s h
    simp [SecureSocket.construct, hr] at h
    subst h
    refine ⟨rfl, ?_, ?_, ?_, ?_, ?_⟩
    · intro ret
      unfold SecureSocket.connect
      split <;> rfl
    · intro ret
      unfold SecureSocket.accept
      split <;> rfl
    · intro lib
      unfold SecureSocket.read
      repeat' split
      all_goals rfl
    · intro msg bw
      unfold SecureSocket.write
      split <;> rfl
    · intro rv
      rfl
  · simp [SecureSocket.construct]

/-- Witness for construct_binds_fd at a concrete socket and session. -/
theorem construct_binds_fd_witness :
    ((⟨⟨7⟩, ⟨some 7, 4⟩, false⟩ : SecureSocket).ssl.fd = some 7)
    ∧ SecureSocket.construct ⟨7⟩ (some ⟨none, 0⟩) 0
        = Except.error (SocketError.ssl_error ("SSL_set_fd")) := by
  refine ⟨?_, (construct_binds_fd ⟨7⟩ ⟨none, 0⟩).2⟩
  exact ((construct_binds_fd ⟨7⟩ ⟨none, 0⟩).1 1 (by decide) _ rfl).1

/-- Claim C9: the locking callback, on an in-range slot, acquires the slot
on a lock intent and releases it on an unlock intent; on any out-of-range
slot (negative indices included) the bounds-checked access fails fatally
and no lock array entry is touched. -/
theorem locking_function_bounds (mode : Nat) (n : Int) (locks : List Bool) :
    (0 ≤ n → n.toNat < locks.length →
      (mode &&& CRYPTO_LOCK ≠ 0 →
        OpenSSL.locking_function mode n locks
          = some (locks.set n.toNat true))
      ∧ (mode &&& CRYPTO_LOCK = 0 →
        OpenSSL.locking_function mode n locks
          = some (locks.set n.toNat false)))
    ∧ (¬ (0 ≤ n ∧ n.toNat < locks.length) →
      OpenSSL.locking_function mode n locks = none) := by
  constructor
  · intro hn hl
    constructor
    · intro hm
      unfold OpenSSL.locking_function
      rw [if_pos ⟨hn, hl⟩, if_pos hm]
    · intro hm
      unfold OpenSSL.locking_function
      rw [if_pos ⟨hn, hl⟩, if_neg (by simp [hm])]
  · intro hout
    unfold OpenSSL.locking_function
    rw [if_neg hout]

/-- Witness for locking_function_bounds: lock, unlock, index past the end,
and negative index. -/
theorem locking_function_bounds_witness :
    OpenSSL.locking_function 1 0 [false, false] = some [true, false]
    ∧ OpenSSL.locking_function 6 0 [true, false] = some [false, false]
    ∧ OpenSSL.locking_function 1 2 [false, false] = none
    ∧ OpenSSL.locking_function 1 (-3) [false, false] = none := by
  refine ⟨((locking_function_bounds 1 0 [false, false]).1 (by decide)
            (by decide)).1 (by decide),
          ((locking_function_bounds 6 0 [true, false]).1 (by decide)
            (by decide)).2 (by decide),
          (locking_function_bounds 1 2 [false, false]).2 (by decide),
          (locking_function_bounds 1 (-3) [false, false]).2 (by decide)⟩

/-- Claim C10: a zero result from SSL_write is treated as success for
every payload: no error is raised, write-readiness is signalled, and the
call returns normally. -/
theorem write_zero_success (s : SecureSocket) (message : List Nat) :
    s.write message 0
      = (Except.ok (), s,
         [Event.SSL_write_call message.length, Event.register_write]) := by
  rfl
